import Mathlib

/-!
Shallow embedding of the UN Population API client
(`src/app/src/api_callers.py`, class `UN_Population`) and verification of
its specification.

Modelling conventions:
- `st.session_state.un_api_key` and `self.api_key` are `Option String`;
  a key that is absent from the session dict and a key stored as Python
  `None` behave identically in this code (both fail the
  `'un_api_key' in st.session_state and st.session_state.un_api_key`
  test), so both are `none`.  Python string truthiness is `truthy`.
- HTTP traffic is an environment `Env`: for each endpoint the response the
  remote service would give (`HttpResult.resp status body`), or a
  network-level failure (`HttpResult.exn msg`, i.e. `requests.get` raises).
- Python exceptions are `Except.error msg`; mutating `st.session_state`
  is explicit state passing of `ClientState`.
- JSON numbers that the client only passes through (the `value` field,
  indicator ids, location ids) are modelled as `Int`.
-/

namespace UNPopulation

/-- Python truthiness of an optional string: `None` and `""` are falsy. -/
def truthy : Option String → Bool
  | none => false
  | some s => s != ""

/-- Session / instance state of the client:
`un_api_key` is `st.session_state.un_api_key`,
`api_key` is `self.api_key = os.environ.get("UN_POPULATION_API_KEY")`
fixed at construction and never written afterwards. -/
structure ClientState where
  un_api_key : Option String
  api_key : Option String
deriving DecidableEq

/-- One entry of the `/indicators` response's `data` array.  The dict
comprehension in `get_indicator_names` reads `indicator['name']` and
`indicator['id']` unconditionally, so both fields are required. -/
structure IndicatorItem where
  name : String
  id : Int
deriving DecidableEq

/-- Body of an `/indicators` (or `/targets`) response: the `data` key may
be absent (`'data' in indicators_data` is tested). -/
structure IndicatorsJson where
  data : Option (List IndicatorItem)
deriving DecidableEq

/-- The nested `location` object of a data item: `name` and `id` keys may
each be absent. -/
structure LocationObj where
  name : Option String
  id : Option Int
deriving DecidableEq

/-- The nested `variant` object of a data item. -/
structure VariantObj where
  name : Option String
deriving DecidableEq

/-- One entry of a `/data/indicators/...` response's `data` array; every
key is read with `.get`, so every field may be absent. -/
structure DataItem where
  timeLabel : Option String
  value : Option Int
  location : Option LocationObj
  variant : Option VariantObj
deriving DecidableEq

/-- Body of a `/data/indicators/...` response. -/
structure DataJson where
  data : Option (List DataItem)
deriving DecidableEq

/-- Outcome of one `requests.get`: an HTTP response, or a raised
network-level exception. -/
inductive HttpResult (α : Type) where
  | resp (status : Nat) (body : α)
  | exn (msg : String)
deriving DecidableEq

/-- The ambient world of one client call: what the user would type into
the `st.text_input` prompt (`none` = nothing entered), and the response
each endpoint would give. -/
structure Env where
  key_input : Option String
  indicatorsResp : HttpResult IndicatorsJson
  targetsResp : HttpResult IndicatorsJson
  dataResp : HttpResult DataJson

/-- `UN_Population._get_api_key`: return the session-cached key if truthy;
otherwise fall back to the environment key stored at construction,
caching it in the session; otherwise `None`. -/
def get_api_key (s : ClientState) : Option String × ClientState :=
  if truthy s.un_api_key then (s.un_api_key, s)
  else if truthy s.api_key then (s.api_key, { s with un_api_key := s.api_key })
  else (none, s)

/-- `UN_Population._check_api_key_input`: resolve via `_get_api_key`; if
that fails, prompt the user, caching a truthy input in the session. -/
def check_api_key_input (inp : Option String) (s : ClientState) :
    Option String × ClientState :=
  let p := get_api_key s
  if truthy p.1 then p
  else if truthy inp then (inp, { p.2 with un_api_key := inp })
  else (none, p.2)

/-- `UN_Population.get_indicators`: without a key, `{"data": []}`;
on 200 the parsed body; on 401 clear the session key and return
`{"data": []}`; otherwise raise; a network failure propagates. -/
def get_indicators (env : Env) (s : ClientState) :
    Except String IndicatorsJson × ClientState :=
  let p := check_api_key_input env.key_input s
  if truthy p.1 then
    match env.indicatorsResp with
    | .exn m => (.error m, p.2)
    | .resp status body =>
      if status = 200 then (.ok body, p.2)
      else if status = 401 then (.ok ⟨some []⟩, { p.2 with un_api_key := none })
      else (.error ("Error fetching indicators: " ++ toString status), p.2)
  else (.ok ⟨some []⟩, p.2)

/-- `UN_Population.get_available_targets`: like `get_indicators` but the
credential comes from `_get_api_key` alone (no interactive prompt). -/
def get_available_targets (env : Env) (s : ClientState) :
    Except String IndicatorsJson × ClientState :=
  let p := get_api_key s
  if truthy p.1 then
    match env.targetsResp with
    | .exn m => (.error m, p.2)
    | .resp status body =>
      if status = 200 then (.ok body, p.2)
      else if status = 401 then (.ok ⟨some []⟩, { p.2 with un_api_key := none })
      else (.error ("Error fetching targets: " ++ toString status), p.2)
  else (.ok ⟨some []⟩, p.2)

/-- Insertion into a Python `dict` modelled as an ordered association
list: an existing key keeps its position and gets the new value, a new
key is appended. -/
def dictInsert (d : List (String × Int)) (k : String) (v : Int) :
    List (String × Int) :=
  if d.any (fun p => p.1 == k) then
    d.map (fun p => if p.1 == k then (k, v) else p)
  else d ++ [(k, v)]

/-- Lookup in the association-list dict (keys are unique). -/
def dictGet? (d : List (String × Int)) (k : String) : Option Int :=
  (d.find? (fun p => p.1 == k)).map (fun p => p.2)

/-- The dict comprehension
`{indicator['name']: indicator['id'] for indicator in data}`:
left-to-right insertion, a duplicated name overwrites. -/
def dictOfItems (items : List IndicatorItem) : List (String × Int) :=
  items.foldl (fun d it => dictInsert d it.name it.id) []

/-- `UN_Population.get_indicator_names`: build the name → id dict from the
indicators response, `{}` when the `data` key is absent; an exception
from `get_indicators` propagates. -/
def get_indicator_names (env : Env) (s : ClientState) :
    Except String (List (String × Int)) × ClientState :=
  match get_indicators env s with
  | (.error m, s1) => (.error m, s1)
  | (.ok j, s1) =>
    match j.data with
    | some items => (.ok (dictOfItems items), s1)
    | none => (.ok [], s1)

/-- A cell of the DataFrame's `year` column: Python `None`, a string
label, or the number `pd.to_numeric` turned it into. -/
inductive Cell where
  | null : Cell
  | str (s : String) : Cell
  | int (n : Int) : Cell
deriving DecidableEq

/-- One row of the DataFrame built by `get_data_for_indicator`. -/
structure Record where
  year : Cell
  value : Option Int
  location : String
  variant : String
deriving DecidableEq

/-- The raw `year` cell of one item before any numeric conversion:
`item.get('timeLabel')` gives `None` or the label string. -/
def yearCellOf : Option String → Cell
  | none => Cell.null
  | some s => Cell.str s

/-- The record built for one data item:
`item.get('timeLabel')`, `item.get('value')`,
`item.get('location', {}).get('name', 'Unknown')`,
`item.get('variant', {}).get('name', 'Unknown')`. -/
def mkRecord (item : DataItem) : Record :=
  { year := yearCellOf item.timeLabel
    value := item.value
    location := ((item.location.getD ⟨none, none⟩).name).getD "Unknown"
    variant := ((item.variant.getD ⟨none⟩).name).getD "Unknown" }

/-- The record list built by the `for item in data['data']` loop, in
response order. -/
def mkRecords (items : List DataItem) : List Record :=
  items.map mkRecord

/-- Value of a decimal digit character. -/
def digitVal? (c : Char) : Option Nat :=
  if c.isDigit then some (c.toNat - 48) else none

/-- Accumulating decimal parser over the characters of a label. -/
def parseNatAux : List Char → Nat → Option Nat
  | [], acc => some acc
  | c :: cs, acc =>
    match digitVal? c with
    | some d => parseNatAux cs (acc * 10 + d)
    | none => none

/-- Numeric parsing of one year label, modelling what `pd.to_numeric`
accepts for the labels this API produces: a nonempty string of decimal
digits. -/
def strToNum? (s : String) : Option Int :=
  match s.data with
  | [] => none
  | c :: cs => (parseNatAux (c :: cs) 0).map Int.ofNat

/-- Numeric conversion of one year cell; a `None` cell converts
(to NaN in pandas, kept as `null` here), a non-numeric string fails. -/
def cellToNum? : Cell → Option Cell
  | Cell.null => some Cell.null
  | Cell.int n => some (Cell.int n)
  | Cell.str s => (strToNum? s).map Cell.int

/-- Columnwise conversion of the `year` column: `some` of the converted
rows when every cell converts, `none` as soon as one fails. -/
def colToNum? : List Record → Option (List Record)
  | [] => some []
  | r :: rs =>
    match cellToNum? r.year, colToNum? rs with
    | some y, some rs2 => some ({ r with year := y } :: rs2)
    | _, _ => none

/-- `df['year'] = pd.to_numeric(df['year'], errors='ignore')`: pandas
converts the whole column, and with `errors='ignore'` returns the input
column unchanged if any value fails to parse. -/
def to_numeric_years (df : List Record) : List Record :=
  match colToNum? df with
  | some df2 => df2
  | none => df

/-- `pd.DataFrame(records)` followed by the `year` column assignment.
`pd.DataFrame([])` has no columns at all, so on an empty record list the
column access `df['year']` raises `KeyError: 'year'`. -/
def build_df (records : List Record) : Except String (List Record) :=
  match records with
  | [] => .error "KeyError: year"
  | _ :: _ => .ok (to_numeric_years records)

/-- `','.join(map(str, locations))`. -/
def joinIds (locations : List Int) : String :=
  String.intercalate "," (locations.map toString)

/-- The data URL: the `locations` parameter is used only when it is
truthy (neither `None` nor the empty list), else World (900). -/
def data_url (indicator_id : Int) (locations : Option (List Int)) : String :=
  match locations with
  | some (l :: ls) =>
    "https://population.un.org/dataportalapi/api/v1/data/indicators/"
      ++ toString indicator_id ++ "/locations/" ++ joinIds (l :: ls)
  | _ =>
    "https://population.un.org/dataportalapi/api/v1/data/indicators/"
      ++ toString indicator_id ++ "/locations/900"

/-- The `try:` body of `UN_Population.get_data_for_indicator`. -/
def get_data_inner (name : String) (locations : Option (List Int))
    (env : Env) (s : ClientState) :
    Except String (List Record) × ClientState :=
  let p := get_api_key s
  if truthy p.1 then
    match get_indicator_names env p.2 with
    | (.error m, s2) => (.error m, s2)
    | (.ok d, s2) =>
      match dictGet? d name with
      | none => (.error ("Indicator name '" ++ name ++ "' not found"), s2)
      | some indicator_id =>
        let _url := data_url indicator_id locations
        match env.dataResp with
        | .exn m => (.error m, s2)
        | .resp status body =>
          if status = 200 then
            match body.data with
            | some items =>
              match build_df (mkRecords items) with
              | .ok df => (.ok df, s2)
              | .error m => (.error m, s2)
            | none => (.ok [], s2)
          else if status = 401 then (.ok [], { s2 with un_api_key := none })
          else (.error (toString status), s2)
  else (.ok [], p.2)

/-- `UN_Population.get_data_for_indicator`: the `except Exception as e:`
clause wraps any exception from the body with the indicator name. -/
def get_data_for_indicator (name : String) (locations : Option (List Int))
    (env : Env) (s : ClientState) :
    Except String (List Record) × ClientState :=
  match get_data_inner name locations env s with
  | (.error m, s2) =>
    (.error ("Error fetching data for " ++ name ++ ": " ++ m), s2)
  | (.ok df, s2) => (.ok df, s2)

/-- Does the first list start the second? (character lists) -/
def startsWithL : List Char → List Char → Bool
  | [], _ => true
  | _ :: _, [] => false
  | a :: as_, b :: bs => a == b && startsWithL as_ bs

/-- Python `needle in hay` on character lists: some suffix of `hay`
starts with `needle`. -/
def subListOf (needle : List Char) : List Char → Bool
  | [] => needle.isEmpty
  | c :: rest => startsWithL needle (c :: rest) || subListOf needle rest

/-- Python `needle in hay` on strings. -/
def strContains (hay needle : String) : Bool :=
  subListOf needle.data hay.data

/-- CPython `set` of ints, with its iteration order modelled for the case
exercised here: for distinct nonnegative ints below the initial hash
table size (8), `hash(i) = i`, each element occupies slot `i`, and
iteration visits slots in ascending order, i.e. ascending int order; the
model extends that ascending order to all ints.  The list is kept sorted
strictly ascending; inserting a member is a no-op. -/
def insertAsc (x : Int) : List Int → List Int
  | [] => [x]
  | y :: ys =>
    if x < y then x :: y :: ys
    else if x = y then y :: ys
    else y :: insertAsc x ys

/-- One iteration of the `location_ids` loop:
`if 'location' in item and 'id' in item['location']` guards the add. -/
def addLocId (acc : List Int) (it : DataItem) : List Int :=
  match it.location with
  | some loc =>
    match loc.id with
    | some i => insertAsc i acc
    | none => acc
  | none => acc

/-- The `location_ids` set built by `get_top_populated_countries`. -/
def pySetOfIds (items : List DataItem) : List Int :=
  items.foldl addLocId []

/-- First-appearance (insertion) order of the guarded location ids, the
order the specification ascribes to the result.  Modelled from the
spec: "insertion order of first appearance in the response". -/
def idsInOrder (items : List DataItem) : List Int :=
  items.foldl
    (fun acc it =>
      match it.location with
      | some loc =>
        match loc.id with
        | some i => if i ∈ acc then acc else acc ++ [i]
        | none => acc
      | none => acc) []

/-- The `try:` body of `UN_Population.get_top_populated_countries`. -/
def get_top_inner (limit : Nat) (env : Env) (s : ClientState) :
    Except String (List Int) × ClientState :=
  let p := get_api_key s
  if truthy p.1 then
    match get_indicator_names env p.2 with
    | (.error m, s2) => (.error m, s2)
    | (.ok d, s2) =>
      match (d.map Prod.fst).filter
          (fun n => strContains n "Total Population") with
      | [] => (.ok [900], s2)
      | pname :: _ =>
        match dictGet? d pname with
        | none => (.error "KeyError", s2)
        | some _indicator_id =>
          match env.dataResp with
          | .exn m => (.error m, s2)
          | .resp status body =>
            if status = 200 then
              match body.data with
              | some (it :: its) =>
                (.ok ((pySetOfIds (it :: its)).take limit), s2)
              | some [] => (.ok [900], s2)
              | none => (.ok [900], s2)
            else if status = 401 then (.ok [900], { s2 with un_api_key := none })
            else (.ok [900], s2)
  else (.ok [900], p.2)

/-- `UN_Population.get_top_populated_countries`: the bare `except:`
swallows every exception and returns `[900]`; the state keeps whatever
mutations happened before the exception. -/
def get_top_populated_countries (limit : Nat) (env : Env) (s : ClientState) :
    List Int × ClientState :=
  match get_top_inner limit env s with
  | (.ok l, s2) => (l, s2)
  | (.error _, s2) => ([900], s2)

/-! Concrete fixtures used to instantiate the verified statements. -/

/-- A state whose session cache and environment key both hold `"k"`. -/
def sE : ClientState := ⟨some "k", some "k"⟩

/-- A state with only a session-cached key. -/
def sK : ClientState := ⟨some "k", none⟩

/-- A state with no credential anywhere. -/
def sN : ClientState := ⟨none, none⟩

/-- A small indicator catalog containing one population indicator. -/
def catB : List IndicatorItem :=
  [⟨"Total Population by sex", 49⟩, ⟨"Other", 2⟩]

/-- A catalog response whose `data` array repeats one name. -/
def catDup : List IndicatorItem :=
  [⟨"Dup", 1⟩, ⟨"Other", 7⟩, ⟨"Dup", 2⟩]

/-- Two data items: location ids appear in the order 4 then 2; the first
has full nested objects, the second misses `location.name` and the whole
`variant` object. -/
def dsB : List DataItem :=
  [⟨some "2020", some 78, some ⟨some "World", some 4⟩, some ⟨some "Median"⟩⟩,
   ⟨some "2021", some 79, some ⟨none, some 2⟩, none⟩]

/-- Every request succeeds: catalog `catB`, data `dsB`. -/
def envB : Env :=
  ⟨none, .resp 200 ⟨some catB⟩, .resp 200 ⟨some []⟩, .resp 200 ⟨some dsB⟩⟩

/-- The indicators endpoint answers 401. -/
def envA : Env :=
  ⟨none, .resp 401 ⟨some []⟩, .resp 200 ⟨some []⟩, .resp 200 ⟨some dsB⟩⟩

/-- The targets endpoint answers 401. -/
def envT : Env :=
  ⟨none, .resp 200 ⟨some catB⟩, .resp 401 ⟨some []⟩, .resp 200 ⟨some dsB⟩⟩

/-- The data endpoint answers 401. -/
def envD401 : Env :=
  ⟨none, .resp 200 ⟨some catB⟩, .resp 200 ⟨some []⟩, .resp 401 ⟨some []⟩⟩

/-- The data endpoint answers 404. -/
def envD404 : Env :=
  ⟨none, .resp 200 ⟨some catB⟩, .resp 200 ⟨some []⟩, .resp 404 ⟨some []⟩⟩

/-- The data endpoint raises a network failure. -/
def envDExn : Env :=
  ⟨none, .resp 200 ⟨some catB⟩, .resp 200 ⟨some []⟩, .exn "ConnectionError"⟩

/-- The data endpoint answers 200 with an empty `data` array. -/
def envDEmpty : Env :=
  ⟨none, .resp 200 ⟨some catB⟩, .resp 200 ⟨some []⟩, .resp 200 ⟨some []⟩⟩

/-- The indicators endpoint returns the duplicated catalog. -/
def envDup : Env :=
  ⟨none, .resp 200 ⟨some catDup⟩, .resp 200 ⟨some []⟩, .resp 200 ⟨some dsB⟩⟩

/-- The indicators endpoint answers 404. -/
def envI404 : Env :=
  ⟨none, .resp 404 ⟨some []⟩, .resp 200 ⟨some []⟩, .resp 200 ⟨some dsB⟩⟩

/-- The indicators endpoint raises a network failure. -/
def envIExn : Env :=
  ⟨none, .exn "ConnectionError", .resp 200 ⟨some []⟩, .resp 200 ⟨some dsB⟩⟩

/-! Helper lemmas: credential resolution. -/

lemma get_api_key_preserves_env (s : ClientState) :
    ((get_api_key s).2).api_key = s.api_key := by
  unfold get_api_key
  by_cases h1 : truthy s.un_api_key = true <;>
    by_cases h2 : truthy s.api_key = true <;> simp [h1, h2]

lemma get_api_key_truthy (s : ClientState)
    (h : truthy (get_api_key s).1 = true) :
    truthy ((get_api_key s).2).un_api_key = true ∧
    ((get_api_key s).2).un_api_key = (get_api_key s).1 := by
  unfold get_api_key at *
  by_cases h1 : truthy s.un_api_key = true <;>
    by_cases h2 : truthy s.api_key = true <;> simp_all [truthy]

lemma get_api_key_of_session (s : ClientState)
    (h : truthy s.un_api_key = true) :
    get_api_key s = (s.un_api_key, s) := by
  unfold get_api_key
  simp [h]

lemma check_of_session (inp : Option String) (s : ClientState)
    (h : truthy s.un_api_key = true) :
    check_api_key_input inp s = (s.un_api_key, s) := by
  unfold check_api_key_input
  simp [get_api_key_of_session s h, h]

/-! Helper lemmas: evaluation of `get_indicators` / `get_indicator_names`
in a state whose session key is truthy. -/

lemma get_indicators_eval (env : Env) (s1 : ClientState)
    (h : truthy s1.un_api_key = true) :
    get_indicators env s1 =
      (match env.indicatorsResp with
       | .exn m => (.error m, s1)
       | .resp status body =>
         if status = 200 then (.ok body, s1)
         else if status = 401 then
           (.ok ⟨some []⟩, { s1 with un_api_key := none })
         else (.error ("Error fetching indicators: " ++ toString status), s1)) := by
  unfold get_indicators
  simp [check_of_session env.key_input s1 h, h]

lemma get_indicator_names_eval_200 (env : Env) (s1 : ClientState)
    (cbody : IndicatorsJson) (cat : List IndicatorItem)
    (h : truthy s1.un_api_key = true)
    (hi : env.indicatorsResp = .resp 200 cbody) (hc : cbody.data = some cat) :
    get_indicator_names env s1 = (.ok (dictOfItems cat), s1) := by
  unfold get_indicator_names
  rw [get_indicators_eval env s1 h, hi]
  simp [hc]

lemma get_indicator_names_eval_401 (env : Env) (s1 : ClientState)
    (b : IndicatorsJson) (h : truthy s1.un_api_key = true)
    (hi : env.indicatorsResp = .resp 401 b) :
    get_indicator_names env s1 = (.ok [], { s1 with un_api_key := none }) := by
  unfold get_indicator_names
  rw [get_indicators_eval env s1 h, hi]
  simp [dictOfItems]

lemma get_indicator_names_eval_other (env : Env) (s1 : ClientState)
    (c : Nat) (b : IndicatorsJson) (h : truthy s1.un_api_key = true)
    (hi : env.indicatorsResp = .resp c b) (hc1 : c ≠ 200) (hc2 : c ≠ 401) :
    get_indicator_names env s1 =
      (.error ("Error fetching indicators: " ++ toString c), s1) := by
  unfold get_indicator_names
  rw [get_indicators_eval env s1 h, hi]
  simp [hc1, hc2]

lemma get_indicator_names_eval_exn (env : Env) (s1 : ClientState)
    (m : String) (h : truthy s1.un_api_key = true)
    (hi : env.indicatorsResp = .exn m) :
    get_indicator_names env s1 = (.error m, s1) := by
  unfold get_indicator_names
  rw [get_indicators_eval env s1 h, hi]

/-! Helper lemmas: substring containment. -/

lemma startsWithL_append (n b : List Char) : startsWithL n (n ++ b) = true := by
  induction n with
  | nil => rfl
  | cons c cs ih => simp [startsWithL, ih]

lemma subListOf_nil_needle (hay : List Char) : subListOf [] hay = true := by
  cases hay <;> simp [subListOf, startsWithL, List.isEmpty]

lemma subListOf_append (a n b : List Char) :
    subListOf n (a ++ (n ++ b)) = true := by
  induction a with
  | nil =>
    cases hn : n with
    | nil => simp [subListOf_nil_needle]
    | cons c cs =>
      have h1 : startsWithL (c :: cs) (c :: (cs ++ b)) = true := by
        have h2 := startsWithL_append (c :: cs) b
        simpa using h2
      simp [subListOf, h1]
  | cons c cs ih => simp [subListOf, ih]

lemma strContains_wrap (a s b : String) :
    strContains (a ++ s ++ b) s = true := by
  have hdata : (a ++ s ++ b).data = a.data ++ (s.data ++ b.data) := by
    show (a.data ++ s.data) ++ b.data = a.data ++ (s.data ++ b.data)
    exact List.append_assoc _ _ _
  unfold strContains
  rw [hdata]
  exact subListOf_append a.data s.data b.data

lemma strContains_suffix (a s : String) : strContains (a ++ s) s = true := by
  have hdata : (a ++ s).data = a.data ++ (s.data ++ []) := by
    show a.data ++ s.data = a.data ++ (s.data ++ [])
    simp
  unfold strContains
  rw [hdata]
  exact subListOf_append a.data s.data []

/-! Helper lemmas: the Python dict (last duplicate wins). -/

lemma dictGet?_cons (a : String) (b : Int) (rest : List (String × Int))
    (k : String) :
    dictGet? ((a, b) :: rest) k =
      if a = k then some b else dictGet? rest k := by
  unfold dictGet?
  by_cases h : a = k
  · rw [List.find?_cons_of_pos _ (by simpa using h), if_pos h]
    rfl
  · rw [List.find?_cons_of_neg _ (by simpa using h), if_neg h]

lemma dictGet?_map_replace (ps : List (String × Int)) (k : String) (v : Int)
    (k' : String) (hk : k' ≠ k) :
    dictGet? (ps.map (fun p => if p.1 == k then (k, v) else p)) k' =
      dictGet? ps k' := by
  induction ps with
  | nil => rfl
  | cons q qs ih =>
    rcases q with ⟨a, b⟩
    simp only [List.map_cons]
    by_cases ha : a = k
    · rw [if_pos (by simpa using ha : (((a, b) : String × Int).1 == k) = true)]
      rw [dictGet?_cons, dictGet?_cons, ih,
        if_neg (fun e : k = k' => hk e.symm),
        if_neg (fun e : a = k' => hk (e.symm.trans ha))]
    · rw [if_neg (by simpa using ha : ¬ (((a, b) : String × Int).1 == k) = true)]
      rw [dictGet?_cons, dictGet?_cons, ih]

lemma dictInsert_cons_miss (p : String × Int) (ps : List (String × Int))
    (k : String) (v : Int) (hp : (p.1 == k) = false) :
    dictInsert (p :: ps) k v = p :: dictInsert ps k v := by
  unfold dictInsert
  have hcond : ((p :: ps).any fun q => q.1 == k) = (ps.any fun q => q.1 == k) := by
    simp [List.any_cons, hp]
  rw [hcond]
  by_cases hmem : (ps.any fun q => q.1 == k) = true
  · rw [if_pos hmem, if_pos hmem]
    simp only [List.map_cons]
    rw [if_neg (by simp [hp])]
  · rw [if_neg hmem, if_neg hmem]
    rfl

lemma dictGet?_dictInsert (d : List (String × Int)) (k : String) (v : Int)
    (k' : String) :
    dictGet? (dictInsert d k v) k' =
      if k' = k then some v else dictGet? d k' := by
  induction d with
  | nil =>
    have hnil : dictInsert [] k v = [(k, v)] := by
      unfold dictInsert
      simp
    rw [hnil, dictGet?_cons]
    by_cases h : k' = k
    · rw [if_pos h.symm, if_pos h]
    · rw [if_neg (fun e : k = k' => h e.symm), if_neg h]
  | cons p ps ih =>
    rcases p with ⟨a, b⟩
    by_cases ha : a = k
    · have hany : (((a, b) : String × Int) :: ps).any (fun q => q.1 == k) = true := by
        simp [List.any_cons, ha]
      unfold dictInsert
      rw [if_pos hany]
      simp only [List.map_cons]
      rw [if_pos (by simpa using ha : (((a, b) : String × Int).1 == k) = true)]
      rw [dictGet?_cons, dictGet?_cons]
      by_cases hk : k' = k
      · rw [if_pos hk.symm, if_pos hk]
      · rw [if_neg (fun e : k = k' => hk e.symm), if_neg hk,
          dictGet?_map_replace ps k v k' hk,
          if_neg (fun e : a = k' => hk (e.symm.trans ha))]
    · rw [dictInsert_cons_miss ⟨a, b⟩ ps k v (by simpa using ha)]
      rw [dictGet?_cons, dictGet?_cons, ih]
      by_cases hk : k' = k
      · rw [if_pos hk, if_neg (fun e : a = k' => ha (e.trans hk)), if_pos hk]
      · by_cases haa : a = k'
        · rw [if_pos haa, if_pos haa, if_neg hk]
        · rw [if_neg haa, if_neg haa, if_neg hk]

lemma dictGet?_foldl (items : List IndicatorItem)
    (d : List (String × Int)) (k : String) :
    dictGet? (items.foldl (fun d it => dictInsert d it.name it.id) d) k =
      items.foldl
        (fun a it => if it.name = k then some it.id else a) (dictGet? d k) := by
  induction items generalizing d with
  | nil => rfl
  | cons it its ih =>
    simp only [List.foldl_cons]
    rw [ih, dictGet?_dictInsert]
    by_cases h : it.name = k
    · simp [h]
    · rw [if_neg (fun e : k = it.name => h e.symm), if_neg h]

/-- The id of the last item carrying name `k`, scanning left to right. -/
lemma dictGet?_dictOfItems (items : List IndicatorItem) (k : String) :
    dictGet? (dictOfItems items) k =
      items.foldl (fun a it => if it.name = k then some it.id else a) none := by
  unfold dictOfItems
  rw [dictGet?_foldl]
  rfl

lemma lastWins_append (pre : List IndicatorItem) (it : IndicatorItem)
    (post : List IndicatorItem) (k : String) (hit : it.name = k)
    (hpost : ∀ j ∈ post, j.name ≠ k) :
    (pre ++ it :: post).foldl
      (fun a j => if j.name = k then some j.id else a) none = some it.id := by
  rw [List.foldl_append]
  simp only [List.foldl_cons, if_pos hit]
  induction post with
  | nil => rfl
  | cons q qs ih =>
    simp only [List.foldl_cons, if_neg (hpost q (by simp))]
    exact ih (fun j hj => hpost j (by simp [hj]))

/-! Helper lemmas: the columnwise numeric conversion of `year`. -/

lemma colToNum?_length (l l2 : List Record) (h : colToNum? l = some l2) :
    l2.length = l.length := by
  induction l generalizing l2 with
  | nil =>
    unfold colToNum? at h
    cases h
    rfl
  | cons r rs ih =>
    unfold colToNum? at h
    cases hy : cellToNum? r.year with
    | none => rw [hy] at h; cases h
    | some y =>
      rw [hy] at h
      cases hrs : colToNum? rs with
      | none => rw [hrs] at h; cases h
      | some rs2 =>
        rw [hrs] at h
        cases h
        simp [ih rs2 hrs]

lemma colToNum?_get? (l l2 : List Record) (h : colToNum? l = some l2)
    (i : Nat) (r2 : Record) (h2 : l2.get? i = some r2) :
    ∃ r, l.get? i = some r ∧ r2.value = r.value ∧
      r2.location = r.location ∧ r2.variant = r.variant ∧
      cellToNum? r.year = some r2.year := by
  induction l generalizing l2 i with
  | nil =>
    unfold colToNum? at h
    cases h
    simp at h2
  | cons r rs ih =>
    unfold colToNum? at h
    cases hy : cellToNum? r.year with
    | none => rw [hy] at h; cases h
    | some y =>
      rw [hy] at h
      cases hrs : colToNum? rs with
      | none => rw [hrs] at h; cases h
      | some rs2 =>
        rw [hrs] at h
        cases h
        cases i with
        | zero =>
          simp only [List.get?] at h2
          cases h2
          exact ⟨r, rfl, rfl, rfl, rfl, hy⟩
        | succ j =>
          simp only [List.get?] at h2
          exact ih rs2 hrs j h2

lemma to_numeric_years_length (l : List Record) :
    (to_numeric_years l).length = l.length := by
  unfold to_numeric_years
  cases h : colToNum? l with
  | none => rfl
  | some l2 => exact colToNum?_length l l2 h

lemma to_numeric_years_get? (l : List Record) (i : Nat) (r2 : Record)
    (h2 : (to_numeric_years l).get? i = some r2) :
    ∃ r, l.get? i = some r ∧ r2.value = r.value ∧
      r2.location = r.location ∧ r2.variant = r.variant ∧
      (r2.year = r.year ∨ cellToNum? r.year = some r2.year) := by
  unfold to_numeric_years at h2
  cases h : colToNum? l with
  | none =>
    rw [h] at h2
    exact ⟨r2, h2, rfl, rfl, rfl, Or.inl rfl⟩
  | some l2 =>
    rw [h] at h2
    obtain ⟨r, hr, h3, h4, h5, h6⟩ := colToNum?_get? l l2 h i r2 h2
    exact ⟨r, hr, h3, h4, h5, Or.inr h6⟩

/-! Helper lemmas: the modelled `set` of location ids. -/

lemma mem_insertAsc (x y : Int) (l : List Int) :
    y ∈ insertAsc x l ↔ y = x ∨ y ∈ l := by
  induction l with
  | nil => simp [insertAsc]
  | cons z zs ih =>
    unfold insertAsc
    by_cases h1 : x < z
    · simp only [if_pos h1, List.mem_cons]
    · by_cases h2 : x = z
      · rw [if_neg h1, if_pos h2]
        constructor
        · intro hy
          exact Or.inr hy
        · rintro (he | hy)
          · rw [he, h2]
            exact List.mem_cons_self z zs
          · exact hy
      · simp only [if_neg h1, if_neg h2, List.mem_cons, ih]
        tauto

lemma sorted_insertAsc (x : Int) (l : List Int)
    (h : l.Sorted (· < ·)) : (insertAsc x l).Sorted (· < ·) := by
  induction l with
  | nil => simp [insertAsc]
  | cons z zs ih =>
    rw [List.sorted_cons] at h
    obtain ⟨hz, hzs⟩ := h
    unfold insertAsc
    by_cases h1 : x < z
    · rw [if_pos h1, List.sorted_cons]
      refine ⟨?_, List.sorted_cons.mpr ⟨hz, hzs⟩⟩
      intro b hb
      rcases List.mem_cons.mp hb with hb | hb
      · omega
      · have := hz b hb
        omega
    · by_cases h2 : x = z
      · rw [if_neg h1, if_pos h2, List.sorted_cons]
        exact ⟨hz, hzs⟩
      · rw [if_neg h1, if_neg h2, List.sorted_cons]
        refine ⟨?_, ih hzs⟩
        intro b hb
        rcases (mem_insertAsc x b zs).mp hb with hb | hb
        · omega
        · exact hz b hb

lemma sorted_addLocId (acc : List Int) (it : DataItem)
    (h : acc.Sorted (· < ·)) : (addLocId acc it).Sorted (· < ·) := by
  unfold addLocId
  split
  · split
    · exact sorted_insertAsc _ _ h
    · exact h
  · exact h

lemma mem_addLocId (acc : List Int) (it : DataItem) (x : Int)
    (h : x ∈ addLocId acc it) :
    x ∈ acc ∨ ∃ loc, it.location = some loc ∧ loc.id = some x := by
  unfold addLocId at h
  split at h
  next loc hloc =>
    split at h
    next i hid =>
      rcases (mem_insertAsc _ x acc).mp h with he | hacc
      · refine Or.inr ⟨loc, hloc, ?_⟩
        rw [he]
        exact hid
      · exact Or.inl hacc
    next hid => exact Or.inl h
  next hloc => exact Or.inl h

lemma sorted_foldl_insert (items : List DataItem) (acc : List Int)
    (h : acc.Sorted (· < ·)) :
    (items.foldl addLocId acc).Sorted (· < ·) := by
  induction items generalizing acc with
  | nil => exact h
  | cons it its ih =>
    simp only [List.foldl_cons]
    exact ih _ (sorted_addLocId acc it h)

lemma pySetOfIds_sorted (items : List DataItem) :
    (pySetOfIds items).Sorted (· < ·) := by
  unfold pySetOfIds
  exact sorted_foldl_insert items [] (by simp)

lemma pySetOfIds_nodup (items : List DataItem) :
    (pySetOfIds items).Nodup := by
  have h := pySetOfIds_sorted items
  exact h.imp (fun hab => ne_of_lt hab)

lemma mem_foldl_insert (items : List DataItem) (acc : List Int) (x : Int)
    (h : x ∈ items.foldl addLocId acc) :
    x ∈ acc ∨ ∃ it ∈ items, ∃ loc, it.location = some loc ∧
      loc.id = some x := by
  induction items generalizing acc with
  | nil => exact Or.inl h
  | cons it its ih =>
    simp only [List.foldl_cons] at h
    rcases ih _ h with hacc | ⟨j, hj, loc, hl, hid⟩
    · rcases mem_addLocId acc it x hacc with hacc2 | ⟨loc, hloc, hid⟩
      · exact Or.inl hacc2
      · exact Or.inr ⟨it, by simp, loc, hloc, hid⟩
    · exact Or.inr ⟨j, by simp [hj], loc, hl, hid⟩

lemma pySetOfIds_mem (items : List DataItem) (x : Int)
    (h : x ∈ pySetOfIds items) :
    ∃ it ∈ items, ∃ loc, it.location = some loc ∧ loc.id = some x := by
  unfold pySetOfIds at h
  rcases mem_foldl_insert items [] x h with hacc | hsrc
  · simp at hacc
  · exact hsrc

/-! Helper lemmas: evaluation of `get_data_for_indicator`. -/

lemma get_data_inner_notfound (name : String) (locs : Option (List Int))
    (env : Env) (s : ClientState) (d : List (String × Int))
    (s2 : ClientState) (h : truthy (get_api_key s).1 = true)
    (hnames : get_indicator_names env (get_api_key s).2 = (.ok d, s2))
    (hmiss : dictGet? d name = none) :
    get_data_inner name locs env s =
      (.error ("Indicator name '" ++ name ++ "' not found"), s2) := by
  unfold get_data_inner
  simp only [h, if_true]
  rw [hnames]
  simp [hmiss]

lemma get_data_inner_catalog_error (name : String) (locs : Option (List Int))
    (env : Env) (s : ClientState) (m : String) (s2 : ClientState)
    (h : truthy (get_api_key s).1 = true)
    (hnames : get_indicator_names env (get_api_key s).2 = (.error m, s2)) :
    get_data_inner name locs env s = (.error m, s2) := by
  unfold get_data_inner
  simp only [h, if_true]
  rw [hnames]

lemma get_data_inner_found (name : String) (locs : Option (List Int))
    (env : Env) (s : ClientState) (d : List (String × Int))
    (s2 : ClientState) (iid : Int) (h : truthy (get_api_key s).1 = true)
    (hnames : get_indicator_names env (get_api_key s).2 = (.ok d, s2))
    (hhit : dictGet? d name = some iid) :
    get_data_inner name locs env s =
      (match env.dataResp with
       | .exn m => (.error m, s2)
       | .resp status body =>
         if status = 200 then
           match body.data with
           | some items =>
             match build_df (mkRecords items) with
             | .ok df => (.ok df, s2)
             | .error m => (.error m, s2)
           | none => (.ok [], s2)
         else if status = 401 then (.ok [], { s2 with un_api_key := none })
         else (.error (toString status), s2)) := by
  unfold get_data_inner
  simp only [h, if_true]
  rw [hnames]
  simp [hhit]

lemma get_data_wrap_ok (name : String) (locs : Option (List Int))
    (env : Env) (s : ClientState) (df : List Record) (s2 : ClientState)
    (h : get_data_inner name locs env s = (.ok df, s2)) :
    get_data_for_indicator name locs env s = (.ok df, s2) := by
  unfold get_data_for_indicator
  rw [h]

lemma get_data_wrap_error (name : String) (locs : Option (List Int))
    (env : Env) (s : ClientState) (m : String) (s2 : ClientState)
    (h : get_data_inner name locs env s = (.error m, s2)) :
    get_data_for_indicator name locs env s =
      (.error ("Error fetching data for " ++ name ++ ": " ++ m), s2) := by
  unfold get_data_for_indicator
  rw [h]

lemma get_data_error_wrapped (name : String) (locs : Option (List Int))
    (env : Env) (s : ClientState) (m : String)
    (h : (get_data_for_indicator name locs env s).1 = .error m) :
    ∃ inner, m = "Error fetching data for " ++ name ++ ": " ++ inner := by
  unfold get_data_for_indicator at h
  rcases hi : get_data_inner name locs env s with ⟨res, s2⟩
  rw [hi] at h
  cases res with
  | ok df => simp at h
  | error m0 =>
    simp at h
    exact ⟨m0, h.symm⟩

/-! Helper lemmas: evaluation of `get_top_populated_countries`. -/

lemma get_indicator_names_ok_shape (env : Env) (s1 : ClientState)
    (d : List (String × Int)) (s2 : ClientState)
    (h : get_indicator_names env s1 = (.ok d, s2)) (hne : d ≠ []) :
    ∃ cbody cat, env.indicatorsResp = HttpResult.resp 200 cbody ∧
      cbody.data = some cat ∧ d = dictOfItems cat := by
  unfold get_indicator_names get_indicators at h
  by_cases hk : truthy (check_api_key_input env.key_input s1).1 = true
  · simp only [hk, if_true] at h
    cases hi : env.indicatorsResp with
    | exn m =>
      rw [hi] at h
      simp at h
    | resp status body =>
      rw [hi] at h
      by_cases h200 : status = 200
      · subst h200
        simp at h
        cases hb : body.data with
        | none =>
          rw [hb] at h
          simp at h
          exact absurd h.1 hne
        | some cat =>
          rw [hb] at h
          simp at h
          exact ⟨body, cat, rfl, hb, h.1.symm⟩
      · by_cases h401 : status = 401
        · subst h401
          simp [h200, dictOfItems] at h
          exact absurd h.1 hne
        · simp [h200, h401] at h
  · simp only [hk, if_false] at h
    simp [dictOfItems] at h
    exact absurd h.1 hne

lemma get_top_eval_found (limit : Nat) (env : Env) (s : ClientState)
    (d : List (String × Int)) (s2 : ClientState) (pname : String)
    (rest : List String) (pid : Int)
    (h : truthy (get_api_key s).1 = true)
    (hnames : get_indicator_names env (get_api_key s).2 = (.ok d, s2))
    (hpop : (d.map Prod.fst).filter
      (fun n => strContains n "Total Population") = pname :: rest)
    (hhit : dictGet? d pname = some pid) :
    get_top_inner limit env s =
      (match env.dataResp with
       | .exn m => (.error m, s2)
       | .resp status body =>
         if status = 200 then
           match body.data with
           | some (it :: its) =>
             (.ok ((pySetOfIds (it :: its)).take limit), s2)
           | some [] => (.ok [900], s2)
           | none => (.ok [900], s2)
         else if status = 401 then (.ok [900], { s2 with un_api_key := none })
         else (.ok [900], s2)) := by
  unfold get_top_inner
  simp only [h, if_true]
  rw [hnames]
  simp only [hpop, hhit]

lemma get_top_cases (limit : Nat) (env : Env) (s : ClientState) :
    (get_top_populated_countries limit env s).1 = [900] ∨
    (truthy (get_api_key s).1 = true ∧
     (∃ cbody cat, env.indicatorsResp = HttpResult.resp 200 cbody ∧
       cbody.data = some cat) ∧
     ∃ body it its, env.dataResp = HttpResult.resp 200 body ∧
       body.data = some (it :: its) ∧
       (get_top_populated_countries limit env s).1 =
         (pySetOfIds (it :: its)).take limit) := by
  by_cases h : truthy (get_api_key s).1 = true
  · rcases hnames : get_indicator_names env (get_api_key s).2 with ⟨res, s2⟩
    cases res with
    | error m =>
      left
      unfold get_top_populated_countries get_top_inner
      simp only [h, if_true]
      rw [hnames]
    | ok d =>
      rcases hpop : (d.map Prod.fst).filter
          (fun n => strContains n "Total Population") with _ | ⟨pname, rest⟩
      · left
        unfold get_top_populated_countries get_top_inner
        simp only [h, if_true]
        rw [hnames]
        simp [hpop]
      · cases hhit : dictGet? d pname with
        | none =>
          left
          unfold get_top_populated_countries get_top_inner
          simp only [h, if_true]
          rw [hnames]
          simp [hpop, hhit]
        | some pid =>
          have heval := get_top_eval_found limit env s d s2 pname rest pid
            h hnames hpop hhit
          have hdne : d ≠ [] := by
            intro he
            rw [he] at hpop
            simp at hpop
          have hshape := get_indicator_names_ok_shape env (get_api_key s).2
            d s2 hnames hdne
          obtain ⟨cbody, cat, hie, hcd, _⟩ := hshape
          cases hdr : env.dataResp with
          | exn m =>
            left
            unfold get_top_populated_countries
            rw [heval, hdr]
          | resp status body =>
            by_cases h200 : status = 200
            · subst h200
              cases hbd : body.data with
              | none =>
                left
                unfold get_top_populated_countries
                rw [heval, hdr]
                simp [hbd]
              | some items =>
                cases items with
                | nil =>
                  left
                  unfold get_top_populated_countries
                  rw [heval, hdr]
                  simp [hbd]
                | cons it its =>
                  right
                  refine ⟨h, ⟨cbody, cat, hie, hcd⟩,
                    body, it, its, rfl, hbd, ?_⟩
                  unfold get_top_populated_countries
                  rw [heval, hdr]
                  simp [hbd]
            · by_cases h401 : status = 401
              · subst h401
                left
                unfold get_top_populated_countries
                rw [heval, hdr]
                simp [h200]
              · left
                unfold get_top_populated_countries
                rw [heval, hdr]
                simp [h200, h401]
  · left
    unfold get_top_populated_countries get_top_inner
    simp only [h]
    simp

lemma get_top_wrap_ok (limit : Nat) (env : Env) (s : ClientState)
    (l : List Int) (s2 : ClientState)
    (h : get_top_inner limit env s = (.ok l, s2)) :
    get_top_populated_countries limit env s = (l, s2) := by
  unfold get_top_populated_countries
  rw [h]

lemma get_top_eval_nopop (limit : Nat) (env : Env) (s : ClientState)
    (d : List (String × Int)) (s2 : ClientState)
    (h : truthy (get_api_key s).1 = true)
    (hnames : get_indicator_names env (get_api_key s).2 = (.ok d, s2))
    (hpop : (d.map Prod.fst).filter
      (fun n => strContains n "Total Population") = []) :
    get_top_inner limit env s = (.ok [900], s2) := by
  unfold get_top_inner
  simp only [h, if_true]
  rw [hnames]
  simp [hpop]

/-! Further helper lemmas: credential preservation and 401 state shapes. -/

lemma check_api_key_input_preserves_env (inp : Option String)
    (s : ClientState) :
    ((check_api_key_input inp s).2).api_key = s.api_key := by
  unfold check_api_key_input
  by_cases h1 : truthy (get_api_key s).1 = true
  · simp [h1, get_api_key_preserves_env]
  · by_cases h2 : truthy inp = true <;>
      simp [h1, h2, get_api_key_preserves_env]

lemma get_indicators_eval_chk (env : Env) (s : ClientState)
    (hk : truthy (check_api_key_input env.key_input s).1 = true) :
    get_indicators env s =
      (match env.indicatorsResp with
       | .exn m => (.error m, (check_api_key_input env.key_input s).2)
       | .resp status body =>
         if status = 200 then
           (.ok body, (check_api_key_input env.key_input s).2)
         else if status = 401 then
           (.ok ⟨some []⟩,
            { (check_api_key_input env.key_input s).2 with un_api_key := none })
         else (.error ("Error fetching indicators: " ++ toString status),
               (check_api_key_input env.key_input s).2)) := by
  unfold get_indicators
  simp only [hk, if_true]

lemma get_indicators_401_state (env : Env) (s : ClientState)
    (b : IndicatorsJson) (h401 : env.indicatorsResp = HttpResult.resp 401 b)
    (hk : truthy (check_api_key_input env.key_input s).1 = true) :
    get_indicators env s =
      (.ok ⟨some []⟩,
       { (check_api_key_input env.key_input s).2 with un_api_key := none }) := by
  rw [get_indicators_eval_chk env s hk, h401]
  simp

lemma get_indicator_names_eval_chk_200 (env : Env) (s : ClientState)
    (cbody : IndicatorsJson) (cat : List IndicatorItem)
    (hk : truthy (check_api_key_input env.key_input s).1 = true)
    (hie : env.indicatorsResp = HttpResult.resp 200 cbody)
    (hcd : cbody.data = some cat) :
    get_indicator_names env s =
      (.ok (dictOfItems cat), (check_api_key_input env.key_input s).2) := by
  unfold get_indicator_names
  rw [get_indicators_eval_chk env s hk, hie]
  simp [hcd]

lemma get_available_targets_401_state (env : Env) (s : ClientState)
    (b : IndicatorsJson) (h401 : env.targetsResp = HttpResult.resp 401 b)
    (hk : truthy (get_api_key s).1 = true) :
    get_available_targets env s =
      (.ok ⟨some []⟩, { (get_api_key s).2 with un_api_key := none }) := by
  unfold get_available_targets
  simp only [hk, if_true]
  rw [h401]
  simp

/-- Any wrapped error message contains the indicator name. -/
lemma strContains_err (name inner : String) :
    strContains ("Error fetching data for " ++ name ++ ": " ++ inner) name =
      true := by
  unfold strContains
  have hdata : ("Error fetching data for " ++ name ++ ": " ++ inner).data =
      ("Error fetching data for ").data ++
        (name.data ++ (": ".data ++ inner.data)) := by
    show ((("Error fetching data for ".data ++ name.data) ++ ": ".data)
        ++ inner.data) = _
    simp [List.append_assoc]
  rw [hdata]
  have h2 := subListOf_append ("Error fetching data for ").data name.data
    (": ".data ++ inner.data)
  exact h2

/-! The claims. -/

/-- C1 (counterexample): when the environment-provided key stored at
construction equals the session-cached credential, a 401 clears the
session cache, yet the very next credential resolution returns the same
credential again (re-read from `self.api_key`), contradicting the claim
that the next resolution does not yield the just-invalidated credential
and re-prompts. -/
theorem C1_counterexample :
    sE.un_api_key = some "k" ∧
    (get_indicators envA sE).2.un_api_key = none ∧
    (get_api_key ((get_indicators envA sE).2)).1 = some "k" :=
  ⟨rfl, rfl, rfl⟩

/-- C1 (amended): after a 401 clears the cached credential, the next
credential resolution never reads the invalidated session entry: it
yields the environment-provided key stored at construction when that is
truthy (possibly the very same string), and otherwise yields `none`, so
the next request re-prompts. -/
theorem C1_theorem (env : Env) (s : ClientState) (b : IndicatorsJson)
    (h401 : env.indicatorsResp = HttpResult.resp 401 b)
    (hk : truthy (check_api_key_input env.key_input s).1 = true) :
    (get_indicators env s).2.un_api_key = none ∧
    (get_api_key ((get_indicators env s).2)).1 =
      (if truthy s.api_key = true then s.api_key else none) := by
  have hstate := get_indicators_401_state env s b h401 hk
  have hapi : ((check_api_key_input env.key_input s).2).api_key = s.api_key :=
    check_api_key_input_preserves_env env.key_input s
  constructor
  · rw [hstate]
  · rw [hstate]
    unfold get_api_key
    simp [truthy, hapi]
    split <;> simp_all

/-- C1 (witness): with a session-cached key, no environment key, and a
401 from the indicators endpoint, the next resolution yields `none`. -/
theorem C1_witness :
    (get_indicators envA sK).2.un_api_key = none ∧
    (get_api_key ((get_indicators envA sK).2)).1 =
      (if truthy sK.api_key = true then sK.api_key else none) :=
  C1_theorem envA sK ⟨some []⟩ rfl rfl

/-- C2: for each operation (list indicators, list targets, fetch time
series, discover locations), whenever a request it issues is answered
with 401, the session-cached credential immediately after the call is
absent, whatever it was before. -/
theorem C2_theorem (env : Env) (s : ClientState) (name : String)
    (locs : Option (List Int)) (limit : Nat) :
    (∀ b, env.indicatorsResp = HttpResult.resp 401 b →
      truthy (check_api_key_input env.key_input s).1 = true →
      (get_indicators env s).2.un_api_key = none) ∧
    (∀ b, env.targetsResp = HttpResult.resp 401 b →
      truthy (get_api_key s).1 = true →
      (get_available_targets env s).2.un_api_key = none) ∧
    (∀ b, env.indicatorsResp = HttpResult.resp 401 b →
      truthy (get_api_key s).1 = true →
      (get_data_for_indicator name locs env s).2.un_api_key = none) ∧
    (∀ cbody cat iid b,
      env.indicatorsResp = HttpResult.resp 200 cbody →
      cbody.data = some cat →
      dictGet? (dictOfItems cat) name = some iid →
      env.dataResp = HttpResult.resp 401 b →
      truthy (get_api_key s).1 = true →
      (get_data_for_indicator name locs env s).2.un_api_key = none) ∧
    (∀ b, env.indicatorsResp = HttpResult.resp 401 b →
      truthy (get_api_key s).1 = true →
      (get_top_populated_countries limit env s).2.un_api_key = none) ∧
    (∀ cbody cat pname rest pid b,
      env.indicatorsResp = HttpResult.resp 200 cbody →
      cbody.data = some cat →
      ((dictOfItems cat).map Prod.fst).filter
        (fun n => strContains n "Total Population") = pname :: rest →
      dictGet? (dictOfItems cat) pname = some pid →
      env.dataResp = HttpResult.resp 401 b →
      truthy (get_api_key s).1 = true →
      (get_top_populated_countries limit env s).2.un_api_key = none) := by
  refine ⟨?_, ?_, ?_, ?_, ?_, ?_⟩
  · intro b h401 hk
    rw [get_indicators_401_state env s b h401 hk]
  · intro b h401 hk
    rw [get_available_targets_401_state env s b h401 hk]
  · intro b h401 hk
    obtain ⟨hs1, _⟩ := get_api_key_truthy s hk
    have hnames := get_indicator_names_eval_401 env (get_api_key s).2 b hs1 h401
    have hinner := get_data_inner_notfound name locs env s []
      { (get_api_key s).2 with un_api_key := none } hk hnames rfl
    rw [get_data_wrap_error name locs env s _ _ hinner]
  · intro cbody cat iid b hie hcd hhit h401d hk
    obtain ⟨hs1, _⟩ := get_api_key_truthy s hk
    have hnames := get_indicator_names_eval_200 env (get_api_key s).2
      cbody cat hs1 hie hcd
    have hinner := get_data_inner_found name locs env s (dictOfItems cat)
      (get_api_key s).2 iid hk hnames hhit
    rw [h401d] at hinner
    simp only at hinner
    rw [get_data_wrap_ok name locs env s _ _ (by simpa using hinner)]
  · intro b h401 hk
    obtain ⟨hs1, _⟩ := get_api_key_truthy s hk
    have hnames := get_indicator_names_eval_401 env (get_api_key s).2 b hs1 h401
    have hpop : (([] : List (String × Int)).map Prod.fst).filter
        (fun n => strContains n "Total Population") = [] := rfl
    have hinner := get_top_eval_nopop limit env s []
      { (get_api_key s).2 with un_api_key := none } hk hnames hpop
    rw [get_top_wrap_ok limit env s _ _ hinner]
  · intro cbody cat pname rest pid b hie hcd hpop hhit h401d hk
    obtain ⟨hs1, _⟩ := get_api_key_truthy s hk
    have hnames := get_indicator_names_eval_200 env (get_api_key s).2
      cbody cat hs1 hie hcd
    have hinner := get_top_eval_found limit env s (dictOfItems cat)
      (get_api_key s).2 pname rest pid hk hnames hpop hhit
    rw [h401d] at hinner
    simp only at hinner
    rw [get_top_wrap_ok limit env s _ _ (by simpa using hinner)]

/-- C2 (witness): each operation, hit with a 401, leaves the session
credential absent on the concrete fixtures. -/
theorem C2_witness :
    (get_indicators envA sK).2.un_api_key = none ∧
    (get_available_targets envT sK).2.un_api_key = none ∧
    (get_data_for_indicator "Other" none envA sK).2.un_api_key = none ∧
    (get_data_for_indicator "Other" none envD401 sK).2.un_api_key = none ∧
    (get_top_populated_countries 10 envA sK).2.un_api_key = none ∧
    (get_top_populated_countries 10 envD401 sK).2.un_api_key = none :=
  ⟨(C2_theorem envA sK "Other" none 10).1 ⟨some []⟩ rfl rfl,
   (C2_theorem envT sK "Other" none 10).2.1 ⟨some []⟩ rfl rfl,
   (C2_theorem envA sK "Other" none 10).2.2.1 ⟨some []⟩ rfl rfl,
   (C2_theorem envD401 sK "Other" none 10).2.2.2.1 ⟨some catB⟩ catB 2
     ⟨some []⟩ rfl rfl (by decide) rfl rfl,
   (C2_theorem envA sK "Other" none 10).2.2.2.2.1 ⟨some []⟩ rfl rfl,
   (C2_theorem envD401 sK "Other" none 10).2.2.2.2.2 ⟨some catB⟩ catB
     "Total Population by sex" [] 49 ⟨some []⟩ rfl rfl (by decide)
     (by decide) rfl rfl⟩

/-- C3: location discovery never raises (it is a total function of the
environment here) and returns exactly `[900]` whenever the credential is
missing, a request is answered 401 or any other non-200 status, a
request raises a network failure, or the data array is empty. -/
theorem C3_theorem (limit : Nat) (env : Env) (s : ClientState) :
    (truthy (get_api_key s).1 = false →
      (get_top_populated_countries limit env s).1 = [900]) ∧
    (∀ b, env.dataResp = HttpResult.resp 401 b →
      (get_top_populated_countries limit env s).1 = [900]) ∧
    (∀ c b, env.dataResp = HttpResult.resp c b → c ≠ 200 →
      (get_top_populated_countries limit env s).1 = [900]) ∧
    (∀ m, env.dataResp = HttpResult.exn m →
      (get_top_populated_countries limit env s).1 = [900]) ∧
    (∀ b, env.dataResp = HttpResult.resp 200 b → b.data = some [] →
      (get_top_populated_countries limit env s).1 = [900]) ∧
    (∀ b, env.indicatorsResp = HttpResult.resp 401 b →
      (get_top_populated_countries limit env s).1 = [900]) ∧
    (∀ c b, env.indicatorsResp = HttpResult.resp c b → c ≠ 200 →
      (get_top_populated_countries limit env s).1 = [900]) ∧
    (∀ m, env.indicatorsResp = HttpResult.exn m →
      (get_top_populated_countries limit env s).1 = [900]) := by
  refine ⟨?_, ?_, ?_, ?_, ?_, ?_, ?_, ?_⟩
  · intro hfalse
    rcases get_top_cases limit env s with h | ⟨hk, _, _⟩
    · exact h
    · rw [hfalse] at hk
      cases hk
  · intro b hb
    rcases get_top_cases limit env s with h | ⟨_, _, body, it, its, hdr, _, _⟩
    · exact h
    · rw [hb] at hdr
      simp at hdr
  · intro c b hb hc
    rcases get_top_cases limit env s with h | ⟨_, _, body, it, its, hdr, _, _⟩
    · exact h
    · rw [hb] at hdr
      simp at hdr
      exact absurd hdr.1 hc
  · intro m hm
    rcases get_top_cases limit env s with h | ⟨_, _, body, it, its, hdr, _, _⟩
    · exact h
    · rw [hm] at hdr
      simp at hdr
  · intro b hb hempty
    rcases get_top_cases limit env s with h | ⟨_, _, body, it, its, hdr, hbd, _⟩
    · exact h
    · rw [hb] at hdr
      simp at hdr
      rw [← hdr] at hbd
      rw [hempty] at hbd
      simp at hbd
  · intro b hb
    rcases get_top_cases limit env s
      with h | ⟨_, ⟨cbody, cat, hie, _⟩, _, _, _, _, _, _⟩
    · exact h
    · rw [hb] at hie
      simp at hie
  · intro c b hb hc
    rcases get_top_cases limit env s
      with h | ⟨_, ⟨cbody, cat, hie, _⟩, _, _, _, _, _, _⟩
    · exact h
    · rw [hb] at hie
      simp at hie
      exact absurd hie.1 hc
  · intro m hm
    rcases get_top_cases limit env s
      with h | ⟨_, ⟨cbody, cat, hie, _⟩, _, _, _, _, _, _⟩
    · exact h
    · rw [hm] at hie
      simp at hie

/-- C3 (witness): each listed failure mode yields `[900]` on the
concrete fixtures. -/
theorem C3_witness :
    (get_top_populated_countries 10 envB sN).1 = [900] ∧
    (get_top_populated_countries 10 envD401 sK).1 = [900] ∧
    (get_top_populated_countries 10 envD404 sK).1 = [900] ∧
    (get_top_populated_countries 10 envDExn sK).1 = [900] ∧
    (get_top_populated_countries 10 envDEmpty sK).1 = [900] ∧
    (get_top_populated_countries 10 envA sK).1 = [900] ∧
    (get_top_populated_countries 10 envI404 sK).1 = [900] ∧
    (get_top_populated_countries 10 envIExn sK).1 = [900] :=
  ⟨(C3_theorem 10 envB sN).1 rfl,
   (C3_theorem 10 envD401 sK).2.1 ⟨some []⟩ rfl,
   (C3_theorem 10 envD404 sK).2.2.1 404 ⟨some []⟩ rfl (by decide),
   (C3_theorem 10 envDExn sK).2.2.2.1 "ConnectionError" rfl,
   (C3_theorem 10 envDEmpty sK).2.2.2.2.1 ⟨some []⟩ rfl rfl,
   (C3_theorem 10 envA sK).2.2.2.2.2.1 ⟨some []⟩ rfl,
   (C3_theorem 10 envI404 sK).2.2.2.2.2.2.1 404 ⟨some []⟩ rfl (by decide),
   (C3_theorem 10 envIExn sK).2.2.2.2.2.2.2 "ConnectionError" rfl⟩

/-- C4 (counterexample): the location ids appear in the response in the
order 4 then 2 (`idsInOrder dsB = [4, 2]`), but the returned list is
`[2, 4]`: the `set` collecting the ids does not iterate in insertion
order, so the returned order is not the insertion order of first
appearance. -/
theorem C4_counterexample :
    (get_top_populated_countries 10 envB sE).1 = [2, 4] ∧
    idsInOrder dsB = [4, 2] ∧
    (get_top_populated_countries 10 envB sE).1 ≠ (idsInOrder dsB).take 10 := by
  decide

/-- C4 (amended): on a successful location-discovery call with limit
`n`, the returned list is the first `n` elements of the set of location
ids of the response's items (in the set's iteration order — ascending
for the small ids modelled here — not insertion order): it has at most
`n` elements, is duplicate-free, and every element is the location id of
some response item. -/
theorem C4_theorem (limit : Nat) (env : Env) (s : ClientState)
    (cbody : IndicatorsJson) (cat : List IndicatorItem) (pname : String)
    (rest : List String) (pid : Int) (dbody : DataJson) (it : DataItem)
    (its : List DataItem)
    (hk : truthy (get_api_key s).1 = true)
    (hie : env.indicatorsResp = HttpResult.resp 200 cbody)
    (hcd : cbody.data = some cat)
    (hpop : ((dictOfItems cat).map Prod.fst).filter
      (fun n => strContains n "Total Population") = pname :: rest)
    (hhit : dictGet? (dictOfItems cat) pname = some pid)
    (hdr : env.dataResp = HttpResult.resp 200 dbody)
    (hbd : dbody.data = some (it :: its)) :
    (get_top_populated_countries limit env s).1 =
      (pySetOfIds (it :: its)).take limit ∧
    (get_top_populated_countries limit env s).1.length ≤ limit ∧
    (get_top_populated_countries limit env s).1.Nodup ∧
    ∀ x ∈ (get_top_populated_countries limit env s).1,
      ∃ item ∈ (it :: its), ∃ loc, item.location = some loc ∧
        loc.id = some x := by
  obtain ⟨hs1, _⟩ := get_api_key_truthy s hk
  have hnames := get_indicator_names_eval_200 env (get_api_key s).2
    cbody cat hs1 hie hcd
  have hinner := get_top_eval_found limit env s (dictOfItems cat)
    (get_api_key s).2 pname rest pid hk hnames hpop hhit
  rw [hdr] at hinner
  simp only at hinner
  rw [hbd] at hinner
  simp only at hinner
  have hres := get_top_wrap_ok limit env s _ _ hinner
  have hfst : (get_top_populated_countries limit env s).1 =
      (pySetOfIds (it :: its)).take limit := by
    rw [hres]
  refine ⟨hfst, ?_, ?_, ?_⟩
  · rw [hfst, List.length_take]
    exact min_le_left _ _
  · rw [hfst]
    exact (pySetOfIds_nodup (it :: its)).sublist (List.take_sublist _ _)
  · intro x hx
    rw [hfst] at hx
    exact pySetOfIds_mem (it :: its) x (List.take_subset _ _ hx)

/-- C4 (witness): on the concrete fixtures the returned list is the
truncated set, with at most 10 elements and no duplicates. -/
theorem C4_witness :
    (get_top_populated_countries 10 envB sK).1 = (pySetOfIds dsB).take 10 ∧
    (get_top_populated_countries 10 envB sK).1.length ≤ 10 ∧
    (get_top_populated_countries 10 envB sK).1.Nodup :=
  have h := C4_theorem 10 envB sK ⟨some catB⟩ catB
    "Total Population by sex" [] 49 ⟨some dsB⟩
    ⟨some "2020", some 78, some ⟨some "World", some 4⟩, some ⟨some "Median"⟩⟩
    [⟨some "2021", some 79, some ⟨none, some 2⟩, none⟩]
    rfl rfl rfl (by decide) (by decide) rfl rfl
  ⟨h.1, h.2.1, h.2.2.1⟩

lemma get_data_eval_success (env : Env) (s : ClientState) (name : String)
    (locs : Option (List Int)) (cbody : IndicatorsJson)
    (cat : List IndicatorItem) (iid : Int) (dbody : DataJson)
    (it : DataItem) (its : List DataItem)
    (hk : truthy (get_api_key s).1 = true)
    (hie : env.indicatorsResp = HttpResult.resp 200 cbody)
    (hcd : cbody.data = some cat)
    (hhit : dictGet? (dictOfItems cat) name = some iid)
    (hdr : env.dataResp = HttpResult.resp 200 dbody)
    (hbd : dbody.data = some (it :: its)) :
    get_data_for_indicator name locs env s =
      (Except.ok (to_numeric_years (mkRecords (it :: its))),
       (get_api_key s).2) := by
  obtain ⟨hs1, _⟩ := get_api_key_truthy s hk
  have hnames := get_indicator_names_eval_200 env (get_api_key s).2
    cbody cat hs1 hie hcd
  have hinner := get_data_inner_found name locs env s (dictOfItems cat)
    (get_api_key s).2 iid hk hnames hhit
  rw [hdr] at hinner
  simp only at hinner
  rw [hbd] at hinner
  simp only [mkRecords, List.map_cons] at hinner
  unfold build_df at hinner
  simp only at hinner
  have hok := get_data_wrap_ok name locs env s _ _ hinner
  rw [hok]
  simp [mkRecords]

/-- C5: a fetch for an indicator name absent from the catalog snapshot
raises an error whose message contains the offending name, and never
returns data. -/
theorem C5_theorem (env : Env) (s : ClientState) (name : String)
    (locs : Option (List Int)) (cbody : IndicatorsJson)
    (cat : List IndicatorItem)
    (hk : truthy (get_api_key s).1 = true)
    (hie : env.indicatorsResp = HttpResult.resp 200 cbody)
    (hcd : cbody.data = some cat)
    (hmiss : dictGet? (dictOfItems cat) name = none) :
    (get_data_for_indicator name locs env s).1 =
      Except.error ("Error fetching data for " ++ name ++ ": " ++
        ("Indicator name '" ++ name ++ "' not found")) ∧
    strContains ("Error fetching data for " ++ name ++ ": " ++
        ("Indicator name '" ++ name ++ "' not found")) name = true ∧
    ∀ df, (get_data_for_indicator name locs env s).1 ≠ Except.ok df := by
  obtain ⟨hs1, _⟩ := get_api_key_truthy s hk
  have hnames := get_indicator_names_eval_200 env (get_api_key s).2
    cbody cat hs1 hie hcd
  have hinner := get_data_inner_notfound name locs env s (dictOfItems cat)
    (get_api_key s).2 hk hnames hmiss
  have hw := get_data_wrap_error name locs env s _ _ hinner
  refine ⟨by rw [hw], strContains_err name _, ?_⟩
  intro df
  rw [hw]
  simp

/-- C5 (witness): fetching the absent name `"Missing"` errors with the
name in the message and returns no data. -/
theorem C5_witness :
    (get_data_for_indicator "Missing" none envB sK).1 =
      Except.error ("Error fetching data for " ++ "Missing" ++ ": " ++
        ("Indicator name '" ++ "Missing" ++ "' not found")) ∧
    strContains ("Error fetching data for " ++ "Missing" ++ ": " ++
        ("Indicator name '" ++ "Missing" ++ "' not found")) "Missing" = true ∧
    (get_data_for_indicator "Missing" none envB sK).1 ≠ Except.ok [] :=
  have h := C5_theorem envB sK "Missing" none ⟨some catB⟩ catB
    rfl rfl rfl (by decide)
  ⟨h.1, h.2.1, h.2.2 []⟩

/-- C6 (counterexample): a successful fetch whose two items carry the
labels "2020" and "2021" returns records whose `year` cells are the
numbers 2020 and 2021 (`pd.to_numeric` converted the column), not the
items' `timeLabel` strings, refuting "each record's year equal to the
item's timeLabel". -/
theorem C6_counterexample :
    (get_data_for_indicator "Total Population by sex" none envB sK).1 =
      Except.ok
        [⟨Cell.int 2020, some 78, "World", "Median"⟩,
         ⟨Cell.int 2021, some 79, "Unknown", "Unknown"⟩] ∧
    dsB.get? 0 = some ⟨some "2020", some 78,
      some ⟨some "World", some 4⟩, some ⟨some "Median"⟩⟩ ∧
    Cell.int 2020 ≠ yearCellOf (some "2020") :=
  ⟨rfl, rfl, by decide⟩

/-- C6 (amended): a successful fetch (status 200, data key present,
nonempty data array) returns one record per item in response order, each
record's value equal to the item's value, and each record's year equal
to the item's timeLabel cell except that the whole column is converted
to numbers when every label parses numerically. -/
theorem C6_theorem (env : Env) (s : ClientState) (name : String)
    (locs : Option (List Int)) (cbody : IndicatorsJson)
    (cat : List IndicatorItem) (iid : Int) (dbody : DataJson)
    (items : List DataItem)
    (hk : truthy (get_api_key s).1 = true)
    (hie : env.indicatorsResp = HttpResult.resp 200 cbody)
    (hcd : cbody.data = some cat)
    (hhit : dictGet? (dictOfItems cat) name = some iid)
    (hdr : env.dataResp = HttpResult.resp 200 dbody)
    (hbd : dbody.data = some items) (hne : items ≠ []) :
    ∃ df, (get_data_for_indicator name locs env s).1 = Except.ok df ∧
      df = to_numeric_years (mkRecords items) ∧
      df.length = items.length ∧
      ∀ i r, df.get? i = some r → ∃ item, items.get? i = some item ∧
        r.value = item.value ∧
        (r.year = yearCellOf item.timeLabel ∨
         cellToNum? (yearCellOf item.timeLabel) = some r.year) := by
  cases items with
  | nil => exact absurd rfl hne
  | cons it its =>
    have heval := get_data_eval_success env s name locs cbody cat iid
      dbody it its hk hie hcd hhit hdr hbd
    refine ⟨to_numeric_years (mkRecords (it :: its)), by rw [heval], rfl,
      ?_, ?_⟩
    · rw [to_numeric_years_length]
      simp [mkRecords]
    · intro i r hgr
      obtain ⟨r0, hr0, hv, hl, hvar, hy⟩ :=
        to_numeric_years_get? (mkRecords (it :: its)) i r hgr
      have hmap : (mkRecords (it :: its)).get? i =
          Option.map mkRecord ((it :: its).get? i) := by
        unfold mkRecords
        exact List.get?_map mkRecord (it :: its) i
      rw [hmap] at hr0
      cases hitem : (it :: its).get? i with
      | none =>
        rw [hitem] at hr0
        cases hr0
      | some item =>
        rw [hitem] at hr0
        have hre : r0 = mkRecord item := by
          cases hr0
          rfl
        refine ⟨item, rfl, ?_, ?_⟩
        · rw [hv, hre]
          rfl
        · rcases hy with hy | hy
          · left
            rw [hy, hre]
            rfl
          · right
            rw [← hy, hre]
            rfl

/-- C6 (witness): the amended statement holds on the concrete success
fixture. -/
theorem C6_witness :
    ∃ df, (get_data_for_indicator "Total Population by sex" none
        envB sK).1 = Except.ok df ∧
      df = to_numeric_years (mkRecords dsB) ∧
      df.length = dsB.length ∧
      ∀ i r, df.get? i = some r → ∃ item, dsB.get? i = some item ∧
        r.value = item.value ∧
        (r.year = yearCellOf item.timeLabel ∨
         cellToNum? (yearCellOf item.timeLabel) = some r.year) :=
  C6_theorem envB sK "Total Population by sex" none ⟨some catB⟩ catB 49
    ⟨some dsB⟩ dsB rfl rfl rfl (by decide) rfl rfl (by decide)

/-- C7: a response item whose nested `location.name` or `variant.name`
is absent (missing object or missing name key) yields a record whose
corresponding field is `"Unknown"`, without raising. -/
theorem C7_theorem (env : Env) (s : ClientState) (name : String)
    (locs : Option (List Int)) (cbody : IndicatorsJson)
    (cat : List IndicatorItem) (iid : Int) (dbody : DataJson)
    (items : List DataItem) (i : Nat) (item : DataItem)
    (hk : truthy (get_api_key s).1 = true)
    (hie : env.indicatorsResp = HttpResult.resp 200 cbody)
    (hcd : cbody.data = some cat)
    (hhit : dictGet? (dictOfItems cat) name = some iid)
    (hdr : env.dataResp = HttpResult.resp 200 dbody)
    (hbd : dbody.data = some items) (hne : items ≠ [])
    (hitem : items.get? i = some item) :
    ∃ df r, (get_data_for_indicator name locs env s).1 = Except.ok df ∧
      df.get? i = some r ∧
      ((item.location = none ∨
        ∃ loc, item.location = some loc ∧ loc.name = none) →
        r.location = "Unknown") ∧
      ((item.variant = none ∨
        ∃ v, item.variant = some v ∧ v.name = none) →
        r.variant = "Unknown") := by
  cases items with
  | nil => exact absurd rfl hne
  | cons it its =>
    have heval := get_data_eval_success env s name locs cbody cat iid
      dbody it its hk hie hcd hhit hdr hbd
    have hlt : i < (it :: its).length := by
      rcases List.get?_eq_some.mp hitem with ⟨hlt, _⟩
      exact hlt
    have hlen : (to_numeric_years (mkRecords (it :: its))).length =
        (it :: its).length := by
      rw [to_numeric_years_length]
      simp [mkRecords]
    have hlt2 : i < (to_numeric_years (mkRecords (it :: its))).length := by
      rw [hlen]
      exact hlt
    have hsome : (to_numeric_years (mkRecords (it :: its))).get? i =
        some ((to_numeric_years (mkRecords (it :: its))).get ⟨i, hlt2⟩) :=
      List.get?_eq_get hlt2
    obtain ⟨r0, hr0, hv, hl, hvar, hy⟩ :=
      to_numeric_years_get? (mkRecords (it :: its)) i _ hsome
    have hmap : (mkRecords (it :: its)).get? i =
        Option.map mkRecord ((it :: its).get? i) := by
      unfold mkRecords
      exact List.get?_map mkRecord (it :: its) i
    rw [hmap, hitem] at hr0
    have hre : r0 = mkRecord item := by
      cases hr0
      rfl
    refine ⟨to_numeric_years (mkRecords (it :: its)),
      (to_numeric_years (mkRecords (it :: its))).get ⟨i, hlt2⟩,
      by rw [heval], hsome, ?_, ?_⟩
    · intro hmiss
      rw [hl, hre]
      rcases hmiss with hnone | ⟨loc, hsome2, hname⟩
      · simp [mkRecord, hnone]
      · simp [mkRecord, hsome2, hname]
    · intro hmiss
      rw [hvar, hre]
      rcases hmiss with hnone | ⟨v, hsome2, hname⟩
      · simp [mkRecord, hnone]
      · simp [mkRecord, hsome2, hname]

/-- C7 (witness): the second fixture item lacks `location.name` and the
whole `variant` object; its record fields are `"Unknown"`. -/
theorem C7_witness :
    ∃ df r, (get_data_for_indicator "Total Population by sex" none
        envB sK).1 = Except.ok df ∧
      df.get? 1 = some r ∧
      (((⟨some "2021", some 79, some ⟨none, some 2⟩, none⟩ :
          DataItem).location = none ∨
        ∃ loc, (⟨some "2021", some 79, some ⟨none, some 2⟩, none⟩ :
          DataItem).location = some loc ∧ loc.name = none) →
        r.location = "Unknown") ∧
      (((⟨some "2021", some 79, some ⟨none, some 2⟩, none⟩ :
          DataItem).variant = none ∨
        ∃ v, (⟨some "2021", some 79, some ⟨none, some 2⟩, none⟩ :
          DataItem).variant = some v ∧ v.name = none) →
        r.variant = "Unknown") :=
  C7_theorem envB sK "Total Population by sex" none ⟨some catB⟩ catB 49
    ⟨some dsB⟩ dsB 1 ⟨some "2021", some 79, some ⟨none, some 2⟩, none⟩
    rfl rfl rfl (by decide) rfl rfl (by decide) rfl

/-- C8: a data-request status that is neither 200 nor 401 raises an
error naming both the indicator and the status, and every error that
escapes the operation is wrapped with the indicator name. -/
theorem C8_theorem (env : Env) (s : ClientState) (name : String)
    (locs : Option (List Int)) :
    (∀ cbody cat iid c dbody,
      truthy (get_api_key s).1 = true →
      env.indicatorsResp = HttpResult.resp 200 cbody →
      cbody.data = some cat →
      dictGet? (dictOfItems cat) name = some iid →
      env.dataResp = HttpResult.resp c dbody → c ≠ 200 → c ≠ 401 →
      (get_data_for_indicator name locs env s).1 =
        Except.error ("Error fetching data for " ++ name ++ ": " ++
          toString c) ∧
      strContains ("Error fetching data for " ++ name ++ ": " ++
        toString c) name = true ∧
      strContains ("Error fetching data for " ++ name ++ ": " ++
        toString c) (toString c) = true) ∧
    (∀ m, (get_data_for_indicator name locs env s).1 = Except.error m →
      strContains m name = true) := by
  constructor
  · intro cbody cat iid c dbody hk hie hcd hhit hdc hc200 hc401
    obtain ⟨hs1, _⟩ := get_api_key_truthy s hk
    have hnames := get_indicator_names_eval_200 env (get_api_key s).2
      cbody cat hs1 hie hcd
    have hinner := get_data_inner_found name locs env s (dictOfItems cat)
      (get_api_key s).2 iid hk hnames hhit
    rw [hdc] at hinner
    simp only [hc200, hc401, if_false] at hinner
    have hw := get_data_wrap_error name locs env s _ _ hinner
    refine ⟨by rw [hw], strContains_err name _, ?_⟩
    exact strContains_suffix ("Error fetching data for " ++ name ++ ": ")
      (toString c)
  · intro m hm
    obtain ⟨inner, he⟩ := get_data_error_wrapped name locs env s m hm
    rw [he]
    exact strContains_err name inner

/-- C8 (witness): a 404 on the data request yields the wrapped error
naming the indicator and the status. -/
theorem C8_witness :
    (get_data_for_indicator "Other" none envD404 sK).1 =
      Except.error ("Error fetching data for " ++ "Other" ++ ": " ++
        toString 404) ∧
    strContains ("Error fetching data for " ++ "Other" ++ ": " ++
      toString 404) "Other" = true ∧
    strContains ("Error fetching data for " ++ "Other" ++ ": " ++
      toString 404) (toString 404) = true :=
  (C8_theorem envD404 sK "Other" none).1 ⟨some catB⟩ catB 2 404 ⟨some []⟩
    rfl rfl rfl (by decide) rfl (by decide) (by decide)

/-- C9: a 401 on the nested catalog request inside the time-series fetch
does not make the fetch return an empty sequence: the catalog comes back
empty, name resolution fails, and the operation raises the wrapped
"Indicator name ... not found" error. -/
theorem C9_theorem (env : Env) (s : ClientState) (name : String)
    (locs : Option (List Int)) (b : IndicatorsJson)
    (hk : truthy (get_api_key s).1 = true)
    (h401 : env.indicatorsResp = HttpResult.resp 401 b) :
    (get_data_for_indicator name locs env s).1 =
      Except.error ("Error fetching data for " ++ name ++ ": " ++
        ("Indicator name '" ++ name ++ "' not found")) ∧
    ∀ df, (get_data_for_indicator name locs env s).1 ≠ Except.ok df := by
  obtain ⟨hs1, _⟩ := get_api_key_truthy s hk
  have hnames := get_indicator_names_eval_401 env (get_api_key s).2 b
    hs1 h401
  have hinner := get_data_inner_notfound name locs env s []
    { (get_api_key s).2 with un_api_key := none } hk hnames rfl
  have hw := get_data_wrap_error name locs env s _ _ hinner
  refine ⟨by rw [hw], ?_⟩
  intro df
  rw [hw]
  simp

/-- C9 (witness): with a 401 from the catalog endpoint the fetch for
`"Other"` raises the wrapped not-found error and returns no data. -/
theorem C9_witness :
    (get_data_for_indicator "Other" none envA sK).1 =
      Except.error ("Error fetching data for " ++ "Other" ++ ": " ++
        ("Indicator name '" ++ "Other" ++ "' not found")) ∧
    (get_data_for_indicator "Other" none envA sK).1 ≠ Except.ok [] :=
  have h := C9_theorem envA sK "Other" none ⟨some []⟩ rfl rfl
  ⟨h.1, h.2 []⟩

/-- C10: a catalog response repeating one name builds without failing,
and the dict maps that name to the id of the last item carrying it. -/
theorem C10_theorem (env : Env) (s : ClientState) (name : String)
    (pre : List IndicatorItem) (it : IndicatorItem)
    (post : List IndicatorItem) (cbody : IndicatorsJson)
    (hk : truthy (check_api_key_input env.key_input s).1 = true)
    (hie : env.indicatorsResp = HttpResult.resp 200 cbody)
    (hcd : cbody.data = some (pre ++ it :: post))
    (hit : it.name = name)
    (hpost : ∀ j ∈ post, j.name ≠ name) :
    get_indicator_names env s =
      (Except.ok (dictOfItems (pre ++ it :: post)),
       (check_api_key_input env.key_input s).2) ∧
    dictGet? (dictOfItems (pre ++ it :: post)) name = some it.id := by
  refine ⟨get_indicator_names_eval_chk_200 env s cbody _ hk hie hcd, ?_⟩
  rw [dictGet?_dictOfItems]
  exact lastWins_append pre it post name hit hpost

/-- C10 (witness): with `"Dup"` mapped to 1 and later to 2, the built
dict resolves `"Dup"` to 2, the last occurrence. -/
theorem C10_witness :
    get_indicator_names envDup sK =
      (Except.ok (dictOfItems catDup), sK) ∧
    dictGet? (dictOfItems catDup) "Dup" = some 2 :=
  C10_theorem envDup sK "Dup" [⟨"Dup", 1⟩, ⟨"Other", 7⟩] ⟨"Dup", 2⟩ []
    ⟨some catDup⟩ rfl rfl rfl rfl (by simp)

end UNPopulation
